import Mathlib

/-!
Verification of the trackmyrun running-log application core: the
goal-completion evaluator (src/utils/goalCompletion.ts together with the
numeric helpers of src/utils/calculations.ts), the activity-file parsers
(src/utils/garminParser.ts) and the batch import orchestrator
(src/components/import/FileImport.tsx).

Modelling conventions:
- JavaScript numbers are modelled by the rationals (no floating-point
  rounding error is modelled); a JS value that can be NaN where it matters
  is modelled as an Option.
- Optional numeric fields are Option so that JS truthiness tests
  (null / undefined / 0 all falsy) can be rendered exactly.
- Calendar dates are modelled at day granularity by integers; the source
  reads the current date from the global clock (new Date()) and parses
  ISO date strings with date-fns parseISO, which is modelled by an
  explicit Clock value carrying the current day and the parsing function.
- Library calls whose internals are outside the repository (DOM XML
  parsing, JS Date parsing, the Supabase persistence call) are modelled
  as components of an explicit environment record.
-/

namespace TrackMyRun

/-- A logged run (interface Run of src/types/index.ts). -/
structure Run where
  id : String
  user_id : String
  date : String
  distance : ℚ
  duration : ℚ
  pace : ℚ
  route : Option String
  notes : Option String
  feeling_rating : ℚ
  deriving DecidableEq

/-- A user goal (interface Goal of src/types/index.ts). -/
structure Goal where
  id : String
  user_id : String
  name : String
  target_date : String
  target_distance : Option ℚ
  target_pace : Option ℚ
  completed : Bool
  description : Option String
  deriving DecidableEq

/-- Evaluator output (interface GoalProgress of goalCompletion.ts). -/
structure GoalProgress where
  isCompleted : Bool
  isAchieved : Bool
  isDateReached : Bool
  distanceProgress : Option ℚ
  paceProgress : Option ℚ
  message : String
  deriving DecidableEq

/-- The implicit global clock of the source: today is the current calendar
day as a day number, and parseDay models date-fns parseISO restricted to
day granularity.  The source computes date-reached as
isAfter(today, targetDate) plus equality of the two calendar days, which
at day granularity is exactly parseDay target ≤ today. -/
structure Clock where
  today : ℤ
  parseDay : String → ℤ

/-- JS truthiness of an optional numeric field: null / undefined and 0 are
falsy, every other number is truthy. -/
def optTruthy (o : Option ℚ) : Bool :=
  match o with
  | none => false
  | some x => decide (x ≠ 0)

/-- calculatePace of calculations.ts: duration / distance, 0 when the
distance is 0. -/
def calculatePace (distance duration : ℚ) : ℚ :=
  if distance = 0 then 0 else duration / distance

/-- Rounding to two decimal places: models both Math.round(x * 100) / 100
and parseFloat(x.toFixed(2)) (JS Math.round is floor(x + 1/2), which is
Mathlib round). -/
def round2 (x : ℚ) : ℚ :=
  (round (x * 100) : ℤ) / 100

/-- calculateTotalDistance of calculations.ts: the sum of the distances,
rounded to two decimal places via toFixed(2) and parseFloat. -/
def calculateTotalDistance (runs : List Run) : ℚ :=
  round2 (runs.foldl (fun sum run => sum + run.distance) 0)

/-- getFastestRun of calculations.ts: among the runs with distance at
least one mile, the reduce keeping the strictly smaller pace (hence the
earliest run of minimum pace); null when no run qualifies.  The source
reduce starts from validRuns[0] and revisits it, which is the same as
folding the tail from the head. -/
def getFastestRun (runs : List Run) : Option Run :=
  let validRuns := runs.filter fun run => decide (1 ≤ run.distance)
  match validRuns with
  | [] => none
  | v :: rest =>
    some (rest.foldl (fun fastest run => if run.pace < fastest.pace then run else fastest) v)

/-- Left-pad a string with zero digits to the given length. -/
def padZeros (s : String) (n : Nat) : String :=
  if s.length < n then ("".pushn (Char.ofNat 48) (n - s.length)) ++ s else s

/-- Models Number.prototype.toFixed nd (round half up at nd decimals and
print with exactly nd fractional digits). -/
def ratToFixed (nd : Nat) (x : ℚ) : String :=
  let n : ℤ := round (x * ((10 : ℚ) ^ nd))
  let sign := if n < 0 then "-" else ""
  let m := n.natAbs
  if nd = 0 then sign ++ toString (m / 10 ^ nd)
  else sign ++ toString (m / 10 ^ nd) ++ "." ++ padZeros (toString (m % 10 ^ nd)) nd

/-- Models the default JS number-to-string conversion used inside template
literals (approximated: integers print exactly, other values at two
decimals; no theorem depends on these display strings). -/
def showNum (x : ℚ) : String :=
  if x.den = 1 then toString x.num else ratToFixed 2 x

/-- The mutable locals of checkGoalCompletion (isAchieved,
distanceProgress, paceProgress, achievementMessage), threaded explicitly
through the three achievement blocks. -/
structure AchState where
  isAchieved : Bool
  distanceProgress : Option ℚ
  paceProgress : Option ℚ
  achievementMessage : String
  deriving DecidableEq

/-- The distance-goal block of checkGoalCompletion (guarded by the JS
truthiness of goal.target_distance). -/
def distanceBlock (goal : Goal) (runs : List Run) (s : AchState) : AchState :=
  match goal.target_distance with
  | none => s
  | some td =>
    if td = 0 then s
    else
      let totalDistance := calculateTotalDistance runs
      let distanceProgress := totalDistance / td * 100
      if td ≤ totalDistance then
        { s with
          isAchieved := true
          distanceProgress := some distanceProgress
          achievementMessage :=
            "Distance goal achieved: " ++ ratToFixed 1 totalDistance ++ "/" ++ showNum td ++ " miles" }
      else
        { s with
          isAchieved := false
          distanceProgress := some distanceProgress
          achievementMessage :=
            "Distance progress: " ++ ratToFixed 1 totalDistance ++ "/" ++ showNum td ++
              " miles (" ++ ratToFixed 1 distanceProgress ++ "%)" }

/-- The pace-goal block of checkGoalCompletion (guarded by the JS
truthiness of goal.target_pace).  The else branch leaves isAchieved as it
was: the source only ever sets it to true here. -/
def paceBlock (goal : Goal) (runs : List Run) (s : AchState) : AchState :=
  match goal.target_pace with
  | none => s
  | some tp =>
    if tp = 0 then s
    else
      match getFastestRun runs with
      | some fastestRun =>
        if fastestRun.pace ≤ tp then
          { s with
            isAchieved := true
            paceProgress := some 100
            achievementMessage :=
              "Pace goal achieved: " ++ ratToFixed 2 fastestRun.pace ++
                " min/mile (target: " ++ ratToFixed 2 tp ++ ")" }
        else
          let bestPace := fastestRun.pace
          { s with
            paceProgress := some (if 0 < bestPace then max 0 (tp / bestPace * 100) else 0)
            achievementMessage :=
              "Best pace: " ++ (if 0 < bestPace then ratToFixed 2 bestPace else "N/A") ++
                " min/mile (target: " ++ ratToFixed 2 tp ++ ")" }
      | none =>
        { s with
          paceProgress := some 0
          achievementMessage := "Best pace: N/A min/mile (target: " ++ ratToFixed 2 tp ++ ")" }

/-- The combined distance-and-pace block of checkGoalCompletion: when both
targets are truthy it recomputes and overwrites isAchieved as the strict
conjunction of the two sub-conditions. -/
def combinedBlock (goal : Goal) (runs : List Run) (s : AchState) : AchState :=
  match goal.target_distance, goal.target_pace with
  | some td, some tp =>
    if td = 0 ∨ tp = 0 then s
    else
      let totalDistance := calculateTotalDistance runs
      let fastestRun := getFastestRun runs
      let distanceAchieved := decide (td ≤ totalDistance)
      let paceAchieved :=
        match fastestRun with
        | some fr => decide (fr.pace ≤ tp)
        | none => false
      let isAchieved := distanceAchieved && paceAchieved
      { s with
        isAchieved := isAchieved
        achievementMessage :=
          if isAchieved then "Both distance and pace goals achieved!"
          else if distanceAchieved then "Distance achieved, pace goal remaining"
          else if paceAchieved then "Pace achieved, distance goal remaining"
          else "Working towards both distance and pace goals" }
  | _, _ => s

/-- The three achievement blocks run in sequence on the initial state, as
in the body of checkGoalCompletion. -/
def achState (goal : Goal) (runs : List Run) : AchState :=
  combinedBlock goal runs (paceBlock goal runs (distanceBlock goal runs
    { isAchieved := false, distanceProgress := none, paceProgress := none,
      achievementMessage := "" }))

/-- Party-popper icon markup embedded in the auto-completed message. -/
def partyPopperSvg : String :=
  "<svg xmlns=\"http://www.w3.org/2000/svg\" width=\"16\" height=\"16\" viewBox=\"0 0 24 24\" fill=\"none\" stroke=\"currentColor\" stroke-width=\"2\" stroke-linecap=\"round\" stroke-linejoin=\"round\" class=\"lucide lucide-party-popper-icon lucide-party-popper\"><path d=\"M5.8 11.3 2 22l10.7-3.79\"/><path d=\"M4 3h.01\"/><path d=\"M22 8h.01\"/><path d=\"M15 2h.01\"/><path d=\"M22 20h.01\"/><path d=\"m22 2-2.24.75a2.9 2.9 0 0 0-1.96 3.12c.1.86-.57 1.63-1.45 1.63h-.38c-.86 0-1.6.6-1.76 1.44L14 10\"/><path d=\"m22 13-.82-.33c-.86-.34-1.82.2-1.98 1.11c-.11.7-.72 1.22-1.43 1.22H17\"/><path d=\"m11 2 .33.82c.34.86-.2 1.82-1.11 1.98C9.52 4.9 9 5.52 9 6.23V7\"/><path d=\"M11 13c1.93 1.93 2.83 4.17 2 5-.83.83-3.07-.07-5-2-1.93-1.93-2.83-4.17-2-5 .83-.83 3.07.07 5 2Z\"/></svg>"

/-- Check-square icon markup embedded in the achieved-early message. -/
def squareCheckSvg : String :=
  "<svg xmlns=\"http://www.w3.org/2000/svg\" width=\"16\" height=\"16\" viewBox=\"0 0 24 24\" fill=\"none\" stroke=\"currentColor\" stroke-width=\"2\" stroke-linecap=\"round\" stroke-linejoin=\"round\" class=\"lucide lucide-square-check-big-icon lucide-square-check-big\"><path d=\"M21 10.656V19a2 2 0 0 1-2 2H5a2 2 0 0 1-2-2V5a2 2 0 0 1 2-2h12.344\"/><path d=\"m9 11 3 3L22 4\"/></svg>"

/-- Timer icon markup embedded in the overdue message. -/
def timerSvg : String :=
  "<svg xmlns=\"http://www.w3.org/2000/svg\" width=\"16\" height=\"16\" viewBox=\"0 0 24 24\" fill=\"none\" stroke=\"currentColor\" stroke-width=\"2\" stroke-linecap=\"round\" stroke-linejoin=\"round\" class=\"lucide lucide-timer-icon lucide-timer\"><line x1=\"10\" x2=\"14\" y1=\"2\" y2=\"2\"/><line x1=\"12\" x2=\"15\" y1=\"14\" y2=\"11\"/><circle cx=\"12\" cy=\"14\" r=\"8\"/></svg>"

/-- checkGoalCompletion of goalCompletion.ts: the manual-completion
short-circuit, the day-granularity date test, the three achievement
blocks, the hybrid completion conjunction and the status message. -/
def checkGoalCompletion (c : Clock) (goal : Goal) (runs : List Run) : GoalProgress :=
  let targetDate := c.parseDay goal.target_date
  let isDateReached := decide (targetDate ≤ c.today)
  if goal.completed then
    { isCompleted := true
      isAchieved := true
      isDateReached := isDateReached
      distanceProgress := none
      paceProgress := none
      message := "Goal completed" }
  else
    let s := achState goal runs
    let shouldAutoComplete := s.isAchieved && isDateReached
    let message :=
      if shouldAutoComplete then
        "\n      " ++ partyPopperSvg ++ " \n      Goal automatically completed! " ++
          s.achievementMessage ++ "\n    "
      else if s.isAchieved && !isDateReached then
        "\n      " ++ squareCheckSvg ++ " \n      Goal achieved! Will auto-complete on " ++
          goal.target_date ++ "\n    "
      else if !s.isAchieved && isDateReached then
        "\n      " ++ timerSvg ++ "\n      Target date reached. " ++
          s.achievementMessage ++ "\n    "
      else s.achievementMessage
    { isCompleted := shouldAutoComplete
      isAchieved := s.isAchieved
      isDateReached := isDateReached
      distanceProgress := s.distanceProgress
      paceProgress := s.paceProgress
      message := message }

/-- checkAllGoalsForCompletion of goalCompletion.ts: the loop pushes, in
input order, a completed copy of every goal whose progress is newly
completed. -/
def checkAllGoalsForCompletion (c : Clock) (goals : List Goal) (runs : List Run) : List Goal :=
  match goals with
  | [] => []
  | goal :: rest =>
    let progress := checkGoalCompletion c goal runs
    if progress.isCompleted && !goal.completed then
      { goal with completed := true } :: checkAllGoalsForCompletion c rest runs
    else
      checkAllGoalsForCompletion c rest runs

/-- getGoalProgressPercentage of goalCompletion.ts: 100 when completed,
else the clamped distance progress, else the clamped pace progress, else
the clamped average, else 0 (the sequential early returns rendered as
nested matches). -/
def getGoalProgressPercentage (c : Clock) (goal : Goal) (runs : List Run) : ℚ :=
  let progress := checkGoalCompletion c goal runs
  if progress.isCompleted then 100
  else
    match optTruthy goal.target_distance, progress.distanceProgress with
    | true, some dp => min 100 dp
    | _, _ =>
      match optTruthy goal.target_pace, progress.paceProgress with
      | true, some pp => min 100 pp
      | _, _ =>
        match optTruthy goal.target_distance && optTruthy goal.target_pace,
              progress.distanceProgress, progress.paceProgress with
        | true, some dp, some pp => min 100 ((dp + pp) / 2)
        | _, _, _ => 0

/-- Character-level model of the JS split with a one-character separator
(every split in the source uses a one-character separator). -/
def jsSplitGo (sep : Char) : List Char → String → List String
  | [], current => [current]
  | c :: cs, current =>
    if c == sep then current :: jsSplitGo sep cs "" else jsSplitGo sep cs (current.push c)

/-- JS String.prototype.split with a one-character separator. -/
def jsSplit (sep : Char) (s : String) : List String :=
  jsSplitGo sep s.toList ""

/-- JS String.prototype.trim: strip leading and trailing whitespace. -/
def jsTrim (s : String) : String :=
  String.mk (((s.toList.dropWhile Char.isWhitespace).reverse.dropWhile Char.isWhitespace).reverse)

/-- JS String.prototype.toLowerCase (ASCII range). -/
def jsToLower (s : String) : String :=
  String.mk (s.toList.map Char.toLower)

/-- Helper for strContains: does the pattern occur at any suffix start. -/
def strContainsGo (pat : List Char) : List Char → Bool
  | [] => pat.isPrefixOf []
  | c :: cs => pat.isPrefixOf (c :: cs) || strContainsGo pat cs

/-- JS String.prototype.includes: substring test. -/
def strContains (s pat : String) : Bool :=
  strContainsGo pat.toList s.toList

/-- Remove every double-quote character (the replace of header cells). -/
def stripQuotes (s : String) : String :=
  String.mk (s.toList.filter fun c => c != '"')

/-- The replace removing every character other than digits, dot and
minus, applied before parseFloat. -/
def cleanNumeric (s : String) : String :=
  String.mk (s.toList.filter fun c => c.isDigit || c == '.' || c == '-')

/-- Value of a digit string read left to right. -/
def digitsToNat (ds : List Char) : Nat :=
  ds.foldl (fun n c => n * 10 + (c.toNat - 48)) 0

/-- parseInt applied after stripping non-digits (NaN, modelled none, when
no digit remains). -/
def parseIntClean (s : String) : Option Nat :=
  let ds := s.toList.filter Char.isDigit
  if ds.isEmpty then none else some (digitsToNat ds)

/-- JS parseFloat on a string already cleaned to digits, dot and minus:
an optional leading minus, integer digits, an optional dot and fraction
digits, stopping at the first unusable character; NaN (none) when no
digit is read. -/
def jsParseFloat (s : String) : Option ℚ :=
  let cs := s.toList
  let signSplit : Bool × List Char :=
    match cs with
    | c :: rest => if c == '-' then (true, rest) else (false, cs)
    | [] => (false, cs)
  let ip := signSplit.2.takeWhile Char.isDigit
  let rest := signSplit.2.dropWhile Char.isDigit
  let fp : List Char :=
    match rest with
    | '.' :: rest2 => rest2.takeWhile Char.isDigit
    | _ => []
  if ip.isEmpty && fp.isEmpty then none
  else
    let mag : ℚ := (digitsToNat ip : ℚ) + (digitsToNat fp : ℚ) / ((10 : ℚ) ^ fp.length)
    some (if signSplit.1 then -mag else mag)

/-- The comma-splitting loop of parseCSVLine: quote characters toggle the
in-quotes mode (and are dropped), commas outside quotes close the current
field, every field is trimmed. -/
def parseCSVLineGo : List Char → List String → String → Bool → List String
  | [], result, current, _ => result ++ [jsTrim current]
  | c :: cs, result, current, inQuotes =>
    if c == '"' then parseCSVLineGo cs result current (!inQuotes)
    else if c == ',' && !inQuotes then parseCSVLineGo cs (result ++ [jsTrim current]) "" inQuotes
    else parseCSVLineGo cs result (current.push c) inQuotes

/-- parseCSVLine of garminParser.ts. -/
def parseCSVLine (line : String) : List String :=
  parseCSVLineGo line.toList [] "" false

/-- findColumnIndex of garminParser.ts: the first candidate name that is a
case-insensitive substring of some header wins, yielding that header
index; -1 when none matches. -/
def findColumnIndex (headers : List String) : List String → ℤ
  | [] => -1
  | name :: rest =>
    match headers.findIdx? (fun h => strContains (jsToLower h) (jsToLower name)) with
    | some i => (i : ℤ)
    | none => findColumnIndex headers rest

/-- The non-blank lines of the CSV content. -/
def csvLines (content : String) : List String :=
  (jsSplit (Char.ofNat 10) content).filter fun l => jsTrim l != ""

/-- The header cells: first line split on commas, trimmed, quotes
removed. -/
def csvHeaders (content : String) : List String :=
  (jsSplit (Char.ofNat 44) ((csvLines content).headD "")).map fun h => stripQuotes (jsTrim h)

/-- Index of the Date column. -/
def csvDateIndex (content : String) : ℤ :=
  findColumnIndex (csvHeaders content) ["Date", "date"]

/-- Index of the Distance column. -/
def csvDistanceIndex (content : String) : ℤ :=
  findColumnIndex (csvHeaders content) ["Distance", "distance"]

/-- Index of the Time column. -/
def csvTimeIndex (content : String) : ℤ :=
  findColumnIndex (csvHeaders content) ["Time", "time", "Moving Time", "Elapsed Time"]

/-- Index of the Activity Type column. -/
def csvActivityTypeIndex (content : String) : ℤ :=
  findColumnIndex (csvHeaders content) ["Activity Type", "activity type", "Sport", "sport"]

/-- Index of the Title column. -/
def csvTitleIndex (content : String) : ℤ :=
  findColumnIndex (csvHeaders content) ["Title", "title", "Name", "name"]

/-- Index of the Avg Pace column. -/
def csvPaceIndex (content : String) : ℤ :=
  findColumnIndex (csvHeaders content) ["Avg Pace", "avg pace", "Average Pace", "pace"]

/-- The JS date library calls of the CSV parser, which live outside the
repository: each models parsing (date-fns parse with pattern M/d/yyyy,
or the Date constructor) followed by format to yyyy-MM-dd, returning
none exactly when the parsed date is NaN. -/
structure CsvEnv where
  parseSlashDate : String → Option String
  parseNativeDate : String → Option String

/-- The date branch of the CSV row parser: slash dates go through the
M/d/yyyy pattern, everything else through the Date constructor. -/
def csvParseDate (env : CsvEnv) (dateStr : String) : Option String :=
  if strContains dateStr "/" then env.parseSlashDate dateStr
  else if strContains dateStr "-" then env.parseNativeDate dateStr
  else env.parseNativeDate dateStr

/-- The time branch of the CSV row parser: HH:MM:SS or MM:SS via parseInt
on each cleaned part, otherwise decimal minutes via parseFloat; none
covers both a NaN part (NaN total) and a part count other than 2 or 3,
each of which makes the source skip the row. -/
def parseTimeMinutes (timeStr : String) : Option ℚ :=
  if strContains timeStr ":" then
    match (jsSplit (Char.ofNat 58) timeStr).map parseIntClean with
    | [some h, some m, some s] => some ((h : ℚ) * 60 + (m : ℚ) + (s : ℚ) / 60)
    | [some m, some s] => some ((m : ℚ) + (s : ℚ) / 60)
    | _ => none
  else jsParseFloat (cleanNumeric timeStr)

/-- The Avg Pace column value: MM:SS via the first two parseInt parts,
else parseFloat; none models a NaN pace (the row is still kept). -/
def parsePaceValue (paceStr : String) : Option ℚ :=
  if strContains paceStr ":" then
    let parts := (jsSplit (Char.ofNat 58) paceStr).map parseIntClean
    match parts.getD 0 none, parts.getD 1 none with
    | some mn, some sc => some ((mn : ℚ) + (sc : ℚ) / 60)
    | _, _ => none
  else jsParseFloat (cleanNumeric paceStr)

/-- Normalized parser output (interface ParsedRunData of
garminParser.ts); pace is an Option because an unparseable Avg Pace cell
produces a NaN pace in the source without skipping the row. -/
structure ParsedRunData where
  date : String
  distance : ℚ
  duration : ℚ
  pace : Option ℚ
  route : Option String
  notes : Option String
  feeling_rating : ℚ
  deriving DecidableEq

/-- The activity-type cell of a data row, lowercased; the empty string
when the column is missing or the row is too short (undefined and the
empty string are equally falsy downstream). -/
def csvActivityType (activityTypeIndex : ℤ) (values : List String) : String :=
  if activityTypeIndex ≠ -1 then jsToLower (values.getD activityTypeIndex.toNat "") else ""

/-- One iteration of the data-row loop of parseCSVFile; none is a skipped
row (continue), in source order: short row, non-running activity type,
missing essential cell, unparseable date, invalid distance (with the
over-50 kilometre reinterpretation), invalid time, then the record. -/
def parseCSVRow (env : CsvEnv)
    (dateIndex distanceIndex timeIndex activityTypeIndex titleIndex paceIndex : ℤ)
    (line : String) : Option ParsedRunData :=
  let values := parseCSVLine line
  if (values.length : ℤ) < max dateIndex (max distanceIndex timeIndex) + 1 then none
  else
    let activityType := csvActivityType activityTypeIndex values
    if activityType ≠ "" ∧ ¬ strContains activityType "run" ∧ ¬ strContains activityType "jog" then
      none
    else
      let dateStr := values.getD dateIndex.toNat ""
      let distanceStr := values.getD distanceIndex.toNat ""
      let timeStr := values.getD timeIndex.toNat ""
      if dateStr = "" ∨ distanceStr = "" ∨ timeStr = "" then none
      else
        match csvParseDate env dateStr with
        | none => none
        | some formattedDate =>
          match jsParseFloat (cleanNumeric distanceStr) with
          | none => none
          | some d0 =>
            if d0 ≤ 0 then none
            else
              let distance := if 50 < d0 then d0 * (621371 / 1000000) else d0
              match parseTimeMinutes timeStr with
              | none => none
              | some durationInMinutes =>
                if durationInMinutes ≤ 0 then none
                else
                  let title := if titleIndex ≠ -1 then values.getD titleIndex.toNat "" else ""
                  let route := if title ≠ "" then title else "Imported from CSV"
                  let pace : Option ℚ :=
                    if paceIndex ≠ -1 ∧ values.getD paceIndex.toNat "" ≠ "" then
                      parsePaceValue (values.getD paceIndex.toNat "")
                    else some (calculatePace distance durationInMinutes)
                  some {
                    date := formattedDate
                    distance := round2 distance
                    duration := round2 durationInMinutes
                    pace := pace.map round2
                    route := some route
                    notes := some "Imported from CSV file"
                    feeling_rating := 3 }

/-- The data rows: every non-blank line after the header. -/
def csvDataRows (content : String) : List String :=
  (csvLines content).drop 1

/-- The row loop of parseCSVFile: each data row either contributes a
record or is skipped (continue). -/
def csvParsedRows (env : CsvEnv) (content : String) : List ParsedRunData :=
  (csvDataRows content).filterMap
    (parseCSVRow env (csvDateIndex content) (csvDistanceIndex content) (csvTimeIndex content)
      (csvActivityTypeIndex content) (csvTitleIndex content) (csvPaceIndex content))

/-- parseCSVFile of garminParser.ts: fewer than two non-blank lines or a
missing required column throws, which the enclosing catch converts to
null; otherwise the row loop collects the parsed rows, and the file
yields null when no row parsed. -/
def parseCSVFile (env : CsvEnv) (content : String) : Option (List ParsedRunData) :=
  let lines := csvLines content
  if lines.length < 2 then none
  else
    if csvDateIndex content = -1 ∨ csvDistanceIndex content = -1 ∨ csvTimeIndex content = -1 then
      none
    else
      let runs := csvParsedRows env content
      if 0 < runs.length then some runs else none

/-- The five format labels of the specification contract. -/
inductive FileType where
  | tcx
  | gpx
  | csv
  | fit
  | unknown
  deriving DecidableEq

/-- detectFileType of garminParser.ts: TCX markers, then the gpx root or
xml-plus-trk pair, then CSV header keywords on the lowercased first line;
the source function has no final return, so unrecognized content yields
undefined, modelled none. -/
def detectFileType (content : String) : Option FileType :=
  let trimmedContent := jsTrim content
  if strContains trimmedContent "<TrainingCenterDatabase" ∨ strContains trimmedContent "<tcx:" then
    some FileType.tcx
  else if strContains trimmedContent "<gpx" ∨
      (strContains trimmedContent "<?xml" ∧ strContains trimmedContent "<trk") then
    some FileType.gpx
  else
    let firstLine := jsToLower ((jsSplit (Char.ofNat 10) trimmedContent).headD "")
    if strContains firstLine "activity type" ∨ strContains firstLine "date" ∨
        strContains firstLine "distance" then
      some FileType.csv
    else none

/-- A submitted file: its name and its raw content. -/
structure FileRec where
  name : String
  content : String
  deriving DecidableEq

/-- Per-file outcome (interface ImportResult of FileImport.tsx). -/
structure ImportResult where
  success : Bool
  fileName : String
  message : String
  runData : Option ParsedRunData
  runCount : Option Nat
  deriving DecidableEq

/-- The collaborators of the orchestrator that live outside the
repository core: the date library of the CSV parser, the FileReader
(which can reject), the DOM-based TCX and GPX parsers (which catch
internally and return null on failure), and the persistence call addRun
(which can reject). -/
structure ImportEnv where
  csv : CsvEnv
  readFile : FileRec → Except String String
  parseTCX : String → Option ParsedRunData
  parseGPX : String → Option ParsedRunData
  addRun : ParsedRunData → Except String Unit

/-- file.name.split on dots, pop, toLowerCase. -/
def fileExt (file : FileRec) : String :=
  jsToLower ((jsSplit (Char.ofNat 46) file.name).getLastD "")

/-- parseGarminFile of garminParser.ts: the switch on the lowercased file
type, throwing on anything but tcx and gpx. -/
def parseGarminFile (env : ImportEnv) (content fileType : String) :
    Except String (Option ParsedRunData) :=
  if jsToLower fileType = "tcx" then Except.ok (env.parseTCX content)
  else if jsToLower fileType = "gpx" then Except.ok (env.parseGPX content)
  else Except.error ("Unsupported file type: " ++ fileType)

/-- The per-record CSV persistence loop of processFiles: each record is
added under its own catch, tallying successes and failures. -/
def importCSVRuns (env : ImportEnv) (runs : List ParsedRunData) : Nat × Nat :=
  runs.foldl (fun counts runData =>
    match env.addRun runData with
    | Except.ok _ => (counts.1 + 1, counts.2)
    | Except.error _ => (counts.1, counts.2 + 1)) (0, 0)

/-- The loop body of processFiles for one file: the try block modelled in
Except (reading, parsing and the single-record persistence can throw),
with the catch turning a thrown error into the failed result. -/
def processOne (env : ImportEnv) (file : FileRec) : ImportResult :=
  let fileExtension := fileExt file
  let body : Except String ImportResult :=
    if ¬ (["tcx", "gpx", "csv"].contains fileExtension) then
      Except.ok {
        success := false
        fileName := file.name
        message := "Unsupported file format. Please use TCX, GPX, or CSV files."
        runData := none
        runCount := none }
    else
      match env.readFile file with
      | Except.error e => Except.error e
      | Except.ok fileContent =>
        if fileExtension = "csv" then
          match parseCSVFile env.csv fileContent with
          | some runs =>
            if 0 < runs.length then
              let counts := importCSVRuns env runs
              Except.ok {
                success := decide (0 < counts.1)
                fileName := file.name
                message := "Imported " ++ toString counts.1 ++ " runs successfully" ++
                  (if 0 < counts.2 then ", " ++ toString counts.2 ++ " failed" else "")
                runData := none
                runCount := some counts.1 }
            else
              Except.ok {
                success := false
                fileName := file.name
                message := "No valid run data found in CSV file."
                runData := none
                runCount := none }
          | none =>
            Except.ok {
              success := false
              fileName := file.name
              message := "No valid run data found in CSV file."
              runData := none
              runCount := none }
        else
          match parseGarminFile env fileContent fileExtension with
          | Except.error e => Except.error e
          | Except.ok (some runData) =>
            match env.addRun runData with
            | Except.error e => Except.error e
            | Except.ok _ =>
              Except.ok {
                success := true
                fileName := file.name
                message := "Successfully imported run: " ++ showNum runData.distance ++
                  " miles on " ++ runData.date
                runData := some runData
                runCount := none }
          | Except.ok none =>
            Except.ok {
              success := false
              fileName := file.name
              message := "Could not parse run data from file."
              runData := none
              runCount := none }
  match body with
  | Except.ok r => r
  | Except.error e =>
    { success := false
      fileName := file.name
      message := "Error processing file: " ++ e
      runData := none
      runCount := none }

/-- processFiles of FileImport.tsx: the sequential loop pushing one
result per file. -/
def processFiles (env : ImportEnv) (files : List FileRec) : List ImportResult :=
  match files with
  | [] => []
  | file :: rest => processOne env file :: processFiles env rest

/-! Helper lemmas shared by the claim theorems. -/

/-- For a goal that is not already completed, every field of the
evaluator output is determined by the achievement state and the date
test. -/
lemma checkGoalCompletion_isCompleted_eq (c : Clock) (goal : Goal) (runs : List Run)
    (h : goal.completed = false) :
    (checkGoalCompletion c goal runs).isCompleted =
      ((achState goal runs).isAchieved && decide (c.parseDay goal.target_date ≤ c.today)) := by
  simp [checkGoalCompletion, h]

lemma checkGoalCompletion_isAchieved_eq (c : Clock) (goal : Goal) (runs : List Run)
    (h : goal.completed = false) :
    (checkGoalCompletion c goal runs).isAchieved = (achState goal runs).isAchieved := by
  simp [checkGoalCompletion, h]

lemma checkGoalCompletion_isDateReached_eq (c : Clock) (goal : Goal) (runs : List Run)
    (h : goal.completed = false) :
    (checkGoalCompletion c goal runs).isDateReached =
      decide (c.parseDay goal.target_date ≤ c.today) := by
  simp [checkGoalCompletion, h]

lemma checkGoalCompletion_distanceProgress_eq (c : Clock) (goal : Goal) (runs : List Run)
    (h : goal.completed = false) :
    (checkGoalCompletion c goal runs).distanceProgress = (achState goal runs).distanceProgress := by
  simp [checkGoalCompletion, h]

lemma checkGoalCompletion_paceProgress_eq (c : Clock) (goal : Goal) (runs : List Run)
    (h : goal.completed = false) :
    (checkGoalCompletion c goal runs).paceProgress = (achState goal runs).paceProgress := by
  simp [checkGoalCompletion, h]

/-- Every goal produced by the batch evaluator carries completed = true. -/
lemma mem_checkAllGoalsForCompletion_completed (c : Clock) (runs : List Run) :
    ∀ (goals : List Goal) (g : Goal),
      g ∈ checkAllGoalsForCompletion c goals runs → g.completed = true := by
  intro goals
  induction goals with
  | nil => intro g hg; simp [checkAllGoalsForCompletion] at hg
  | cons a as ih =>
    intro g hg
    simp only [checkAllGoalsForCompletion] at hg
    by_cases hb : ((checkGoalCompletion c a runs).isCompleted && !a.completed) = true
    · rw [if_pos hb] at hg
      rcases List.mem_cons.mp hg with h1 | h2
      · rw [h1]
      · exact ih g h2
    · rw [if_neg hb] at hg
      exact ih g hg

/-! Concrete fixtures used by the witnesses. -/

/-- A clock for which the fixture target date lies in the future. -/
def clockFutureW : Clock := { today := 100, parseDay := fun _ => 200 }

/-- A clock for which the fixture target date has passed. -/
def clockPastW : Clock := { today := 300, parseDay := fun _ => 200 }

/-- A 25-mile run at pace 9. -/
def runFastW : Run :=
  { id := "r1", user_id := "u1", date := "2025-01-05", distance := 25, duration := 225,
    pace := 9, route := none, notes := none, feeling_rating := 3 }

/-- A sub-mile run (distance one half) at pace 5. -/
def runShortW : Run :=
  { runFastW with id := "r2", distance := ⟨1, 2, by decide, by decide⟩, duration := 4, pace := 5 }

/-- An open distance-only goal: 20 miles by the fixture date. -/
def goalDistW : Goal :=
  { id := "g1", user_id := "u1", name := "Spring 20", target_date := "2025-06-01",
    target_distance := some 20, target_pace := none, completed := false, description := none }

/-- An open combined goal: 20 miles and pace 8. -/
def goalBothW : Goal := { goalDistW with id := "g2", target_pace := some 8 }

/-- An already-completed goal. -/
def goalDoneW : Goal := { goalDistW with id := "g3", completed := true }

/-- An open pace-only goal: pace 8. -/
def goalPaceW : Goal :=
  { goalDistW with id := "g4", target_distance := none, target_pace := some 8 }

/-! The claim theorems. -/

/-- C1: for a goal with completed = false, the evaluator output satisfies
isCompleted = (isAchieved AND isDateReached); in particular, when the
target date is still in the future, an achieved goal has
isDateReached = false and isCompleted = false. -/
theorem checkGoalCompletion_hybrid_rule (c : Clock) (goal : Goal) (runs : List Run)
    (h : goal.completed = false) :
    ((checkGoalCompletion c goal runs).isCompleted =
      ((checkGoalCompletion c goal runs).isAchieved &&
        (checkGoalCompletion c goal runs).isDateReached)) ∧
    (c.today < c.parseDay goal.target_date →
      (checkGoalCompletion c goal runs).isAchieved = true →
        (checkGoalCompletion c goal runs).isDateReached = false ∧
        (checkGoalCompletion c goal runs).isCompleted = false) := by
  refine ⟨?_, ?_⟩
  · rw [checkGoalCompletion_isCompleted_eq c goal runs h,
      checkGoalCompletion_isAchieved_eq c goal runs h,
      checkGoalCompletion_isDateReached_eq c goal runs h]
  · intro hlt _
    have hdr : decide (c.parseDay goal.target_date ≤ c.today) = false :=
      decide_eq_false (not_le.mpr hlt)
    refine ⟨?_, ?_⟩
    · rw [checkGoalCompletion_isDateReached_eq c goal runs h, hdr]
    · rw [checkGoalCompletion_isCompleted_eq c goal runs h, hdr, Bool.and_false]

/-- Witness for C1: the 20-mile goal against a 25-mile history with the
target date in the future. -/
theorem checkGoalCompletion_hybrid_rule_witness :
    goalDistW.completed = false ∧
    (((checkGoalCompletion clockFutureW goalDistW [runFastW]).isCompleted =
      ((checkGoalCompletion clockFutureW goalDistW [runFastW]).isAchieved &&
        (checkGoalCompletion clockFutureW goalDistW [runFastW]).isDateReached)) ∧
    (clockFutureW.today < clockFutureW.parseDay goalDistW.target_date →
      (checkGoalCompletion clockFutureW goalDistW [runFastW]).isAchieved = true →
        (checkGoalCompletion clockFutureW goalDistW [runFastW]).isDateReached = false ∧
        (checkGoalCompletion clockFutureW goalDistW [runFastW]).isCompleted = false)) :=
  ⟨rfl, checkGoalCompletion_hybrid_rule clockFutureW goalDistW [runFastW] rfl⟩

/-- C4: a goal whose completed flag is already true short-circuits to the
fixed completed GoalProgress with message Goal completed, and the batch
evaluator never returns a goal whose completed flag is false. -/
theorem checkGoalCompletion_completed_sticky (c : Clock) (goal : Goal) (runs : List Run)
    (goals : List Goal) (h : goal.completed = true) :
    checkGoalCompletion c goal runs =
      { isCompleted := true
        isAchieved := true
        isDateReached := decide (c.parseDay goal.target_date ≤ c.today)
        distanceProgress := none
        paceProgress := none
        message := "Goal completed" } ∧
    ∀ g ∈ checkAllGoalsForCompletion c goals runs, g.completed = true := by
  refine ⟨?_, ?_⟩
  · simp [checkGoalCompletion, h]
  · intro g hg
    exact mem_checkAllGoalsForCompletion_completed c runs goals g hg

/-- Witness for C4 at the completed fixture goal. -/
theorem checkGoalCompletion_completed_sticky_witness :
    goalDoneW.completed = true ∧
    (checkGoalCompletion clockFutureW goalDoneW [runFastW] =
      { isCompleted := true
        isAchieved := true
        isDateReached := decide (clockFutureW.parseDay goalDoneW.target_date ≤ clockFutureW.today)
        distanceProgress := none
        paceProgress := none
        message := "Goal completed" } ∧
    ∀ g ∈ checkAllGoalsForCompletion clockFutureW [goalDoneW, goalDistW] [runFastW],
      g.completed = true) :=
  ⟨rfl, checkGoalCompletion_completed_sticky clockFutureW goalDoneW [runFastW]
    [goalDoneW, goalDistW] rfl⟩

/-- C2: for an open goal with both positive targets, achievement is the
strict conjunction of the distance condition and the existence of a
qualifying fastest run meeting the pace target; in particular distance
success with a too-slow best pace is not achieved. -/
theorem checkGoalCompletion_combined_conjunctive (c : Clock) (goal : Goal) (runs : List Run)
    (td tp : ℚ) (htd : goal.target_distance = some td) (htp : goal.target_pace = some tp)
    (htd0 : 0 < td) (htp0 : 0 < tp) (h : goal.completed = false) :
    ((checkGoalCompletion c goal runs).isAchieved = true ↔
      (td ≤ calculateTotalDistance runs ∧
        ∃ fr, getFastestRun runs = some fr ∧ fr.pace ≤ tp)) ∧
    (td ≤ calculateTotalDistance runs →
      (∀ fr, getFastestRun runs = some fr → tp < fr.pace) →
      (checkGoalCompletion c goal runs).isAchieved = false) := by
  have hA : (checkGoalCompletion c goal runs).isAchieved = (achState goal runs).isAchieved :=
    checkGoalCompletion_isAchieved_eq c goal runs h
  have hcomb : (achState goal runs).isAchieved =
      (decide (td ≤ calculateTotalDistance runs) &&
        (match getFastestRun runs with
         | some fr => decide (fr.pace ≤ tp)
         | none => false)) := by
    unfold achState combinedBlock
    rw [htd, htp]
    have hcond : ¬(td = 0 ∨ tp = 0) := by
      push_neg
      exact ⟨htd0.ne', htp0.ne'⟩
    cases hfr : getFastestRun runs <;> simp [hfr, hcond]
  refine ⟨?_, ?_⟩
  · rw [hA, hcomb]
    cases hfr : getFastestRun runs with
    | none => simp
    | some fr => simp
  · intro hdist hslow
    rw [hA, hcomb]
    cases hfr : getFastestRun runs with
    | none => simp
    | some fr => simp [decide_eq_false (not_le.mpr (hslow fr hfr))]

/-- Witness for C2: combined 20-mile and pace-8 goal, 25 miles run at
best pace 9: distance alone succeeds yet the conjunction fails. -/
theorem checkGoalCompletion_combined_conjunctive_witness :
    goalBothW.target_distance = some 20 ∧ goalBothW.target_pace = some 8 ∧
    (0:ℚ) < 20 ∧ (0:ℚ) < 8 ∧ goalBothW.completed = false ∧
    ((((checkGoalCompletion clockPastW goalBothW [runFastW]).isAchieved = true ↔
      ((20:ℚ) ≤ calculateTotalDistance [runFastW] ∧
        ∃ fr, getFastestRun [runFastW] = some fr ∧ fr.pace ≤ 8)) ∧
    ((20:ℚ) ≤ calculateTotalDistance [runFastW] →
      (∀ fr, getFastestRun [runFastW] = some fr → (8:ℚ) < fr.pace) →
      (checkGoalCompletion clockPastW goalBothW [runFastW]).isAchieved = false))) :=
  ⟨rfl, rfl, by decide, by decide, rfl,
    checkGoalCompletion_combined_conjunctive clockPastW goalBothW [runFastW] 20 8 rfl rfl
      (by decide) (by decide) rfl⟩

/-- The pace-minimising fold of getFastestRun returns the start value or
a list element, never exceeds the start pace, and is a lower bound for
every element pace. -/
lemma foldl_fastest (l : List Run) : ∀ v : Run,
    ((l.foldl (fun fastest run => if run.pace < fastest.pace then run else fastest) v) = v ∨
      (l.foldl (fun fastest run => if run.pace < fastest.pace then run else fastest) v) ∈ l) ∧
    (l.foldl (fun fastest run => if run.pace < fastest.pace then run else fastest) v).pace ≤
      v.pace ∧
    ∀ r ∈ l,
      (l.foldl (fun fastest run => if run.pace < fastest.pace then run else fastest) v).pace ≤
        r.pace := by
  induction l with
  | nil => intro v; simp
  | cons a as ih =>
    intro v
    simp only [List.foldl_cons]
    by_cases hp : a.pace < v.pace
    · rw [if_pos hp]
      obtain ⟨hmem, hle, hall⟩ := ih a
      refine ⟨?_, hle.trans hp.le, ?_⟩
      · rcases hmem with h1 | h2
        · exact Or.inr (by rw [h1]; exact List.mem_cons_self a as)
        · exact Or.inr (List.mem_cons_of_mem a h2)
      · intro r hr
        rcases List.mem_cons.mp hr with h1 | h2
        · rw [h1]; exact hle
        · exact hall r h2
    · rw [if_neg hp]
      obtain ⟨hmem, hle, hall⟩ := ih v
      push_neg at hp
      refine ⟨?_, hle, ?_⟩
      · rcases hmem with h1 | h2
        · exact Or.inl h1
        · exact Or.inr (List.mem_cons_of_mem a h2)
      · intro r hr
        rcases List.mem_cons.mp hr with h1 | h2
        · rw [h1]; exact hle.trans hp
        · exact hall r h2

/-- C5: getFastestRun returns null exactly when every run is sub-mile,
otherwise a qualifying run of minimum pace; hence a pace-only goal over a
sub-mile-only history is not achieved. -/
theorem getFastestRun_spec (runs : List Run) :
    (getFastestRun runs = none ↔ ∀ r ∈ runs, r.distance < 1) ∧
    (∀ fr, getFastestRun runs = some fr →
      fr ∈ runs ∧ 1 ≤ fr.distance ∧ ∀ r ∈ runs, 1 ≤ r.distance → fr.pace ≤ r.pace) ∧
    (∀ (c : Clock) (goal : Goal) (tp : ℚ), goal.completed = false →
      optTruthy goal.target_distance = false → goal.target_pace = some tp →
      (∀ r ∈ runs, r.distance < 1) →
      (checkGoalCompletion c goal runs).isAchieved = false) := by
  have hnone : getFastestRun runs = none ↔
      runs.filter (fun run => decide (1 ≤ run.distance)) = [] := by
    unfold getFastestRun
    cases hfl : runs.filter (fun run => decide (1 ≤ run.distance)) <;> simp [hfl]
  have hiff : getFastestRun runs = none ↔ ∀ r ∈ runs, r.distance < 1 := by
    rw [hnone, List.filter_eq_nil_iff]
    simp [not_le]
  refine ⟨hiff, ?_, ?_⟩
  · intro fr hfr
    unfold getFastestRun at hfr
    cases hfl : runs.filter (fun run => decide (1 ≤ run.distance)) with
    | nil => rw [hfl] at hfr; simp at hfr
    | cons v rest =>
      rw [hfl] at hfr
      simp only [Option.some.injEq] at hfr
      obtain ⟨hmem, hle, hall⟩ := foldl_fastest rest v
      rw [hfr] at hmem hle hall
      have hfr_filter : fr ∈ runs.filter (fun run => decide (1 ≤ run.distance)) := by
        rw [hfl]
        rcases hmem with h1 | h2
        · rw [h1]; exact List.mem_cons_self v rest
        · exact List.mem_cons_of_mem v h2
      refine ⟨List.mem_of_mem_filter hfr_filter, ?_, ?_⟩
      · have := List.of_mem_filter hfr_filter
        simpa using this
      · intro r hr hrd
        have hrfl : r ∈ runs.filter (fun run => decide (1 ≤ run.distance)) :=
          List.mem_filter.mpr ⟨hr, by simpa using hrd⟩
        rw [hfl] at hrfl
        rcases List.mem_cons.mp hrfl with h1 | h2
        · rw [h1]; exact hle
        · exact hall r h2
  · intro c goal tp hcomp htdf htp hsub
    have hfr : getFastestRun runs = none := hiff.mpr hsub
    have htd : goal.target_distance = none ∨ goal.target_distance = some 0 := by
      cases hg : goal.target_distance with
      | none => exact Or.inl rfl
      | some x =>
        right
        unfold optTruthy at htdf
        rw [hg] at htdf
        simp at htdf
        rw [htdf]
    rw [checkGoalCompletion_isAchieved_eq c goal runs hcomp]
    unfold achState
    rcases htd with hg | hg <;> rcases eq_or_ne tp 0 with h2 | h2 <;>
      simp [distanceBlock, paceBlock, combinedBlock, hg, htp, h2, hfr]

/-- Witness for C5: a single half-mile run; the pace-only fixture goal is
not achieved. -/
theorem getFastestRun_spec_witness :
    (getFastestRun [runShortW] = none ↔ ∀ r ∈ [runShortW], r.distance < 1) ∧
    (∀ fr, getFastestRun [runShortW] = some fr →
      fr ∈ [runShortW] ∧ 1 ≤ fr.distance ∧
        ∀ r ∈ [runShortW], 1 ≤ r.distance → fr.pace ≤ r.pace) ∧
    (∀ (c : Clock) (goal : Goal) (tp : ℚ), goal.completed = false →
      optTruthy goal.target_distance = false → goal.target_pace = some tp →
      (∀ r ∈ [runShortW], r.distance < 1) →
      (checkGoalCompletion c goal [runShortW]).isAchieved = false) :=
  getFastestRun_spec [runShortW]

/-- The batch evaluator is the filter of newly completed goals mapped to
their completed copies. -/
lemma checkAll_eq_filter_map (c : Clock) (runs : List Run) (goals : List Goal) :
    checkAllGoalsForCompletion c goals runs =
      (goals.filter fun g => (checkGoalCompletion c g runs).isCompleted && !g.completed).map
        (fun g => { g with completed := true }) := by
  induction goals with
  | nil => rfl
  | cons a as ih =>
    simp only [checkAllGoalsForCompletion, List.filter_cons]
    by_cases hb : ((checkGoalCompletion c a runs).isCompleted && !a.completed) = true
    · simp [hb, ih]
    · simp [hb, ih]

/-- C3: the batch evaluator returns exactly the newly completed goals,
completed flag set, and is idempotent: after flipping those goals'
completed flags in the input, a second call returns none of them. -/
theorem checkAllGoalsForCompletion_spec (c : Clock) (goals : List Goal) (runs : List Run) :
    (checkAllGoalsForCompletion c goals runs =
      (goals.filter fun g => (checkGoalCompletion c g runs).isCompleted && !g.completed).map
        (fun g => { g with completed := true })) ∧
    (∀ g ∈ checkAllGoalsForCompletion c goals runs, g.completed = true) ∧
    ((checkAllGoalsForCompletion c
        (goals.map fun g =>
          if ((checkAllGoalsForCompletion c goals runs).map Goal.id).contains g.id then
            { g with completed := true }
          else g) runs).filter
      (fun g => ((checkAllGoalsForCompletion c goals runs).map Goal.id).contains g.id)) = [] := by
  refine ⟨checkAll_eq_filter_map c runs goals,
    mem_checkAllGoalsForCompletion_completed c runs goals, ?_⟩
  simp only [List.filter_eq_nil_iff]
  intro b hb
  rw [checkAll_eq_filter_map c runs
    (goals.map fun g =>
      if ((checkAllGoalsForCompletion c goals runs).map Goal.id).contains g.id then
        { g with completed := true }
      else g)] at hb
  obtain ⟨a, ha, hba⟩ := List.mem_map.mp hb
  obtain ⟨hag2, hpa⟩ := List.mem_filter.mp ha
  obtain ⟨g0, hg0, hag⟩ := List.mem_map.mp hag2
  by_cases hc :
      (((checkAllGoalsForCompletion c goals runs).map Goal.id).contains g0.id) = true
  · rw [if_pos hc] at hag
    rw [← hag] at hpa
    simp at hpa
  · rw [if_neg hc] at hag
    rw [← hba, ← hag]
    simpa using hc

/-- Witness for C3 at the fixture goals and run history. -/
theorem checkAllGoalsForCompletion_spec_witness :
    (checkAllGoalsForCompletion clockPastW [goalDistW, goalBothW, goalDoneW] [runFastW] =
      ([goalDistW, goalBothW, goalDoneW].filter fun g =>
        (checkGoalCompletion clockPastW g [runFastW]).isCompleted && !g.completed).map
        (fun g => { g with completed := true })) ∧
    (∀ g ∈ checkAllGoalsForCompletion clockPastW [goalDistW, goalBothW, goalDoneW] [runFastW],
      g.completed = true) ∧
    ((checkAllGoalsForCompletion clockPastW
        ([goalDistW, goalBothW, goalDoneW].map fun g =>
          if ((checkAllGoalsForCompletion clockPastW [goalDistW, goalBothW, goalDoneW]
              [runFastW]).map Goal.id).contains g.id then
            { g with completed := true }
          else g) [runFastW]).filter
      (fun g => ((checkAllGoalsForCompletion clockPastW [goalDistW, goalBothW, goalDoneW]
        [runFastW]).map Goal.id).contains g.id)) = [] :=
  checkAllGoalsForCompletion_spec clockPastW [goalDistW, goalBothW, goalDoneW] [runFastW]

/-- The pace block never touches distanceProgress. -/
lemma paceBlock_distanceProgress (goal : Goal) (runs : List Run) (s : AchState) :
    (paceBlock goal runs s).distanceProgress = s.distanceProgress := by
  unfold paceBlock
  repeat' split
  all_goals rfl

/-- The combined block never touches distanceProgress. -/
lemma combinedBlock_distanceProgress (goal : Goal) (runs : List Run) (s : AchState) :
    (combinedBlock goal runs s).distanceProgress = s.distanceProgress := by
  unfold combinedBlock
  repeat' split
  all_goals rfl

/-- The combined block never touches paceProgress. -/
lemma combinedBlock_paceProgress (goal : Goal) (runs : List Run) (s : AchState) :
    (combinedBlock goal runs s).paceProgress = s.paceProgress := by
  unfold combinedBlock
  repeat' split
  all_goals rfl

/-- A goal without a distance target skips the distance block. -/
lemma distanceBlock_none (goal : Goal) (runs : List Run) (s : AchState)
    (h : goal.target_distance = none) : distanceBlock goal runs s = s := by
  unfold distanceBlock
  rw [h]

/-- With a truthy distance target the distance block records the distance
percentage. -/
lemma distanceBlock_distanceProgress_some (goal : Goal) (runs : List Run) (s : AchState)
    (td : ℚ) (h : goal.target_distance = some td) (h0 : td ≠ 0) :
    (distanceBlock goal runs s).distanceProgress =
      some (calculateTotalDistance runs / td * 100) := by
  unfold distanceBlock
  rw [h]
  by_cases h2 : td ≤ calculateTotalDistance runs <;> simp [h0, h2]

/-- With a truthy pace target the pace block always records a nonnegative
pace percentage. -/
lemma paceBlock_paceProgress_some (goal : Goal) (runs : List Run) (s : AchState)
    (tp : ℚ) (h : goal.target_pace = some tp) (h0 : tp ≠ 0) :
    ∃ v, (paceBlock goal runs s).paceProgress = some v ∧ 0 ≤ v := by
  unfold paceBlock
  rw [h]
  rcases hfr : getFastestRun runs with _ | fr
  · exact ⟨0, by simp [h0], le_refl 0⟩
  · by_cases h2 : fr.pace ≤ tp
    · exact ⟨100, by simp [h0, h2], by norm_num⟩
    · refine ⟨if 0 < fr.pace then max 0 (tp / fr.pace * 100) else 0, by simp [h0, h2], ?_⟩
      split
      · exact le_max_left 0 _
      · exact le_refl 0

/-- The running sum of distances stays nonnegative. -/
lemma foldl_add_distance_nonneg (runs : List Run) (hr : ∀ r ∈ runs, 0 ≤ r.distance) :
    ∀ init : ℚ, 0 ≤ init → 0 ≤ runs.foldl (fun sum run => sum + run.distance) init := by
  induction runs with
  | nil => intro init h; simpa using h
  | cons a as ih =>
    intro init h
    simp only [List.foldl_cons]
    exact ih (fun r hr2 => hr r (List.mem_cons_of_mem a hr2)) (init + a.distance)
      (add_nonneg h (hr a (List.mem_cons_self a as)))

/-- Rounding to two decimals preserves nonnegativity. -/
lemma round2_nonneg (x : ℚ) (h : 0 ≤ x) : 0 ≤ round2 x := by
  unfold round2
  have hz : (0:ℤ) ≤ round (x * 100) := by
    rw [round_eq]
    refine Int.le_floor.mpr ?_
    push_cast
    linarith
  have hq : (0:ℚ) ≤ (round (x * 100) : ℤ) := by exact_mod_cast hz
  exact div_nonneg hq (by norm_num)

/-- The total distance of a nonnegative run history is nonnegative. -/
lemma calculateTotalDistance_nonneg (runs : List Run) (hr : ∀ r ∈ runs, 0 ≤ r.distance) :
    0 ≤ calculateTotalDistance runs :=
  round2_nonneg _ (foldl_add_distance_nonneg runs hr 0 (le_refl 0))

/-- C10: for a goal with a positive target set and a nonnegative run
history, the display percentage lies in the closed interval from 0 to
100, and equals 100 whenever the evaluator reports completion. -/
theorem getGoalProgressPercentage_bounds (c : Clock) (goal : Goal) (runs : List Run)
    (h1 : ∀ td, goal.target_distance = some td → 0 < td)
    (h2 : ∀ tp, goal.target_pace = some tp → 0 < tp)
    (h3 : goal.target_distance ≠ none ∨ goal.target_pace ≠ none)
    (hr : ∀ r ∈ runs, 0 ≤ r.distance ∧ 0 ≤ r.pace) :
    0 ≤ getGoalProgressPercentage c goal runs ∧
    getGoalProgressPercentage c goal runs ≤ 100 ∧
    ((checkGoalCompletion c goal runs).isCompleted = true →
      getGoalProgressPercentage c goal runs = 100) := by
  by_cases hic : (checkGoalCompletion c goal runs).isCompleted = true
  · have hval : getGoalProgressPercentage c goal runs = 100 := by
      simp [getGoalProgressPercentage, hic]
    rw [hval]
    exact ⟨by norm_num, le_refl _, fun _ => rfl⟩
  · cases hgcb : goal.completed with
    | true => exact absurd (by simp [checkGoalCompletion, hgcb]) hic
    | false =>
      rcases htd : goal.target_distance with _ | td
      · rcases htp : goal.target_pace with _ | tp
        · exact absurd h3 (by simp [htd, htp])
        · have htp0 : 0 < tp := h2 tp htp
          obtain ⟨v, hv, hv0⟩ :=
            paceBlock_paceProgress_some goal runs
              (distanceBlock goal runs
                { isAchieved := false, distanceProgress := none, paceProgress := none,
                  achievementMessage := "" }) tp htp htp0.ne'
          have hpp : (checkGoalCompletion c goal runs).paceProgress = some v := by
            rw [checkGoalCompletion_paceProgress_eq c goal runs hgcb]
            unfold achState
            rw [combinedBlock_paceProgress]
            exact hv
          have hdp : (checkGoalCompletion c goal runs).distanceProgress = none := by
            rw [checkGoalCompletion_distanceProgress_eq c goal runs hgcb]
            unfold achState
            rw [combinedBlock_distanceProgress, paceBlock_distanceProgress,
              distanceBlock_none goal runs _ htd]
          have hval : getGoalProgressPercentage c goal runs = min 100 v := by
            simp [getGoalProgressPercentage, hic, hpp, hdp, htd, htp, optTruthy, htp0.ne']
          rw [hval]
          exact ⟨le_min (by norm_num) hv0, min_le_left _ _, fun hcc => absurd hcc hic⟩
      · have htd0 : 0 < td := h1 td htd
        have hdp : (checkGoalCompletion c goal runs).distanceProgress =
            some (calculateTotalDistance runs / td * 100) := by
          rw [checkGoalCompletion_distanceProgress_eq c goal runs hgcb]
          unfold achState
          rw [combinedBlock_distanceProgress, paceBlock_distanceProgress]
          exact distanceBlock_distanceProgress_some goal runs _ td htd htd0.ne'
        have hdp0 : 0 ≤ calculateTotalDistance runs / td * 100 := by
          have ht := calculateTotalDistance_nonneg runs (fun r hr2 => (hr r hr2).1)
          positivity
        have hval : getGoalProgressPercentage c goal runs =
            min 100 (calculateTotalDistance runs / td * 100) := by
          simp [getGoalProgressPercentage, hic, hdp, htd, optTruthy, htd0.ne']
        rw [hval]
        exact ⟨le_min (by norm_num) hdp0, min_le_left _ _, fun hcc => absurd hcc hic⟩

/-- Witness for C10 at the distance fixture goal and the 25-mile run. -/
theorem getGoalProgressPercentage_bounds_witness :
    (∀ td, goalDistW.target_distance = some td → 0 < td) ∧
    (∀ tp, goalDistW.target_pace = some tp → 0 < tp) ∧
    (goalDistW.target_distance ≠ none ∨ goalDistW.target_pace ≠ none) ∧
    (∀ r ∈ [runFastW], 0 ≤ r.distance ∧ 0 ≤ r.pace) ∧
    (0 ≤ getGoalProgressPercentage clockFutureW goalDistW [runFastW] ∧
    getGoalProgressPercentage clockFutureW goalDistW [runFastW] ≤ 100 ∧
    ((checkGoalCompletion clockFutureW goalDistW [runFastW]).isCompleted = true →
      getGoalProgressPercentage clockFutureW goalDistW [runFastW] = 100)) :=
  ⟨fun td h => (Option.some.inj h) ▸ (by decide : (0:ℚ) < 20),
   fun tp h => by simp [goalDistW] at h,
   Or.inl (by decide),
   by decide,
   getGoalProgressPercentage_bounds clockFutureW goalDistW [runFastW]
     (fun td h => (Option.some.inj h) ▸ (by decide : (0:ℚ) < 20))
     (fun tp h => by simp [goalDistW] at h)
     (Or.inl (by decide))
     (by decide)⟩

/-- C6 counterexample: on content recognized as none of TCX, GPX or CSV
the detector returns no value at all (undefined), not the value unknown;
so it does not return one of the five contract labels. -/
theorem detectFileType_counterexample : detectFileType "hello" = none := by decide

/-- C6 (amended): the detector only ever yields tcx, gpx or csv, or no
value; it never yields fit or unknown, and unrecognized content yields no
value. -/
theorem detectFileType_range (content : String) :
    (detectFileType content = some FileType.tcx ∨ detectFileType content = some FileType.gpx ∨
      detectFileType content = some FileType.csv ∨ detectFileType content = none) ∧
    detectFileType content ≠ some FileType.fit ∧
    detectFileType content ≠ some FileType.unknown ∧
    (¬ strContains (jsTrim content) "<TrainingCenterDatabase" →
     ¬ strContains (jsTrim content) "<tcx:" →
     ¬ strContains (jsTrim content) "<gpx" →
     ¬ (strContains (jsTrim content) "<?xml" ∧ strContains (jsTrim content) "<trk") →
     ¬ strContains (jsToLower ((jsSplit (Char.ofNat 10) (jsTrim content)).headD ""))
        "activity type" →
     ¬ strContains (jsToLower ((jsSplit (Char.ofNat 10) (jsTrim content)).headD "")) "date" →
     ¬ strContains (jsToLower ((jsSplit (Char.ofNat 10) (jsTrim content)).headD "")) "distance" →
     detectFileType content = none) := by
  refine ⟨?_, ?_, ?_, ?_⟩
  · simp only [detectFileType]
    split
    · exact Or.inl rfl
    · split
      · exact Or.inr (Or.inl rfl)
      · split
        · exact Or.inr (Or.inr (Or.inl rfl))
        · exact Or.inr (Or.inr (Or.inr rfl))
  · simp only [detectFileType]
    split
    · simp
    · split
      · simp
      · split
        · simp
        · simp
  · simp only [detectFileType]
    split
    · simp
    · split
      · simp
      · split
        · simp
        · simp
  · intro h1 h2 h3 h4 h5 h6 h7
    simp only [detectFileType]
    rw [if_neg (not_or.mpr ⟨h1, h2⟩), if_neg (not_or.mpr ⟨h3, h4⟩),
      if_neg (not_or.mpr ⟨h5, not_or.mpr ⟨h6, h7⟩⟩)]

/-- Witness for the amended C6 at unrecognizable content. -/
theorem detectFileType_range_witness :
    (¬ strContains (jsTrim "hello") "<TrainingCenterDatabase") ∧
    (¬ strContains (jsTrim "hello") "<tcx:") ∧
    (¬ strContains (jsTrim "hello") "<gpx") ∧
    (¬ (strContains (jsTrim "hello") "<?xml" ∧ strContains (jsTrim "hello") "<trk")) ∧
    (¬ strContains (jsToLower ((jsSplit (Char.ofNat 10) (jsTrim "hello")).headD ""))
      "activity type") ∧
    (¬ strContains (jsToLower ((jsSplit (Char.ofNat 10) (jsTrim "hello")).headD "")) "date") ∧
    (¬ strContains (jsToLower ((jsSplit (Char.ofNat 10) (jsTrim "hello")).headD "")) "distance") ∧
    detectFileType "hello" = none :=
  ⟨by decide, by decide, by decide, by decide, by decide, by decide, by decide,
    (detectFileType_range "hello").2.2.2 (by decide) (by decide) (by decide) (by decide)
      (by decide) (by decide) (by decide)⟩

/-- A parsed record used by the orchestrator fixtures. -/
def prdW : ParsedRunData :=
  { date := "2024-01-01", distance := 3, duration := 24, pace := some 8, route := none,
    notes := none, feeling_rating := 3 }

/-- Date oracle fixture for the CSV parser. -/
def csvEnvW : CsvEnv :=
  { parseSlashDate := fun s =>
      if s = "1/1/2024" then some "2024-01-01"
      else if s = "1/2/2024" then some "2024-01-02"
      else none
    parseNativeDate := fun _ => none }

/-- Orchestrator environment fixture: reading bad.tcx rejects, TCX
content parses to the fixture record, persistence succeeds. -/
def importEnvW : ImportEnv :=
  { csv := csvEnvW
    readFile := fun f => if f.name = "bad.tcx" then Except.error "boom" else Except.ok f.content
    parseTCX := fun _ => some prdW
    parseGPX := fun _ => none
    addRun := fun _ => Except.ok () }

/-- A second orchestrator environment whose persistence always fails. -/
def importEnvW2 : ImportEnv := { importEnvW with addRun := fun _ => Except.error "down" }

/-- An unsupported-extension file. -/
def fileFitW : FileRec := { name := "workout.fit", content := "binary" }

/-- A TCX file fixture. -/
def fileTcxW : FileRec := { name := "a.tcx", content := "tcxdata" }

/-- A file whose read rejects under the fixture environment. -/
def fileBadW : FileRec := { name := "bad.tcx", content := "y" }

/-- C7: a file whose extension is not tcx, gpx or csv yields the failed
format-unsupported result, independently of every parser and persistence
collaborator (none is invoked), and the batch continues with the rest. -/
theorem processOne_unsupported (env env2 : ImportEnv) (file : FileRec)
    (h : (["tcx", "gpx", "csv"].contains (fileExt file)) = false) :
    processOne env file =
      { success := false
        fileName := file.name
        message := "Unsupported file format. Please use TCX, GPX, or CSV files."
        runData := none
        runCount := none } ∧
    processOne env file = processOne env2 file ∧
    ∀ rest, processFiles env (file :: rest) =
      { success := false
        fileName := file.name
        message := "Unsupported file format. Please use TCX, GPX, or CSV files."
        runData := none
        runCount := none } :: processFiles env rest := by
  have hp : ∀ e : ImportEnv, processOne e file =
      { success := false
        fileName := file.name
        message := "Unsupported file format. Please use TCX, GPX, or CSV files."
        runData := none
        runCount := none } := by
    intro e
    have hne1 : fileExt file ≠ "tcx" := fun hx => absurd h (by rw [hx]; decide)
    have hne2 : fileExt file ≠ "gpx" := fun hx => absurd h (by rw [hx]; decide)
    have hne3 : fileExt file ≠ "csv" := fun hx => absurd h (by rw [hx]; decide)
    simp [processOne, hne1, hne2, hne3]
  refine ⟨hp env, (hp env).trans (hp env2).symm, fun rest => ?_⟩
  simp only [processFiles]
  rw [hp env]

/-- Witness for C7: a .fit file under two different environments. -/
theorem processOne_unsupported_witness :
    (["tcx", "gpx", "csv"].contains (fileExt fileFitW)) = false ∧
    (processOne importEnvW fileFitW =
      { success := false
        fileName := fileFitW.name
        message := "Unsupported file format. Please use TCX, GPX, or CSV files."
        runData := none
        runCount := none } ∧
    processOne importEnvW fileFitW = processOne importEnvW2 fileFitW ∧
    ∀ rest, processFiles importEnvW (fileFitW :: rest) =
      { success := false
        fileName := fileFitW.name
        message := "Unsupported file format. Please use TCX, GPX, or CSV files."
        runData := none
        runCount := none } :: processFiles importEnvW rest) :=
  ⟨by decide, processOne_unsupported importEnvW importEnvW2 fileFitW (by decide)⟩

/-- Every branch of processOne reports the name of its own file. -/
lemma processOne_fileName (env : ImportEnv) (file : FileRec) :
    (processOne env file).fileName = file.name := by
  simp only [processOne]
  split
  · rename_i r heq
    repeat' split at heq
    all_goals cases heq
    all_goals rfl
  · rfl

/-- C8: the batch produces exactly one result per input file in input
order, each naming its file; a read rejection or a persistence rejection
for one file becomes that file's failed result (the map form shows the
rest of the batch is unaffected). -/
theorem processFiles_per_file (env : ImportEnv) (files : List FileRec) :
    processFiles env files = files.map (processOne env) ∧
    (processFiles env files).length = files.length ∧
    (processFiles env files).map ImportResult.fileName = files.map FileRec.name ∧
    (∀ file e, (["tcx", "gpx", "csv"].contains (fileExt file)) = true →
      env.readFile file = Except.error e →
      processOne env file =
        { success := false
          fileName := file.name
          message := "Error processing file: " ++ e
          runData := none
          runCount := none }) ∧
    (∀ file content runData e, fileExt file = "tcx" →
      env.readFile file = Except.ok content →
      env.parseTCX content = some runData →
      env.addRun runData = Except.error e →
      processOne env file =
        { success := false
          fileName := file.name
          message := "Error processing file: " ++ e
          runData := none
          runCount := none }) := by
  have hmap : processFiles env files = files.map (processOne env) := by
    induction files with
    | nil => rfl
    | cons f fs ih => simp only [processFiles, List.map_cons]; rw [ih]
  refine ⟨hmap, ?_, ?_, ?_, ?_⟩
  · rw [hmap, List.length_map]
  · rw [hmap, List.map_map]
    exact List.map_congr_left fun f _ => processOne_fileName env f
  · intro file e hc hre
    simp only [processOne, hre]
    rw [if_neg (not_not_intro hc)]
  · intro file content runData e hext hre hptcx haddr
    have hc : (["tcx", "gpx", "csv"].contains (fileExt file)) = true := by
      rw [hext]; decide
    have hne : fileExt file ≠ "csv" := by rw [hext]; decide
    have hg : parseGarminFile env content (fileExt file) =
        Except.ok (env.parseTCX content) := by
      unfold parseGarminFile
      rw [hext, if_pos (by decide)]
    simp only [processOne, hre, hg, hptcx, haddr]
    rw [if_neg (not_not_intro hc), if_neg hne]

/-- Witness for C8: a two-file batch where the second file's read
rejects. -/
theorem processFiles_per_file_witness :
    processFiles importEnvW [fileTcxW, fileBadW] =
      [fileTcxW, fileBadW].map (processOne importEnvW) ∧
    (processFiles importEnvW [fileTcxW, fileBadW]).length = 2 ∧
    (processFiles importEnvW [fileTcxW, fileBadW]).map ImportResult.fileName =
      ["a.tcx", "bad.tcx"] ∧
    (["tcx", "gpx", "csv"].contains (fileExt fileBadW)) = true ∧
    importEnvW.readFile fileBadW = Except.error "boom" ∧
    processOne importEnvW fileBadW =
      { success := false
        fileName := fileBadW.name
        message := "Error processing file: " ++ "boom"
        runData := none
        runCount := none } := by
  have h := processFiles_per_file importEnvW [fileTcxW, fileBadW]
  refine ⟨h.1, h.2.1, ?_, by decide, rfl, ?_⟩
  · rw [h.2.2.1]
    rfl
  · exact h.2.2.2.1 fileBadW "boom" (by decide) rfl

/-- A data row with a present non-running, non-jogging activity type is
skipped. -/
lemma parseCSVRow_skip_activity (env : CsvEnv) (di dsi ti ai tli pi : ℤ) (line : String)
    (hC : csvActivityType ai (parseCSVLine line) ≠ "" ∧
      ¬ strContains (csvActivityType ai (parseCSVLine line)) "run" ∧
      ¬ strContains (csvActivityType ai (parseCSVLine line)) "jog") :
    parseCSVRow env di dsi ti ai tli pi line = none := by
  simp only [parseCSVRow]
  split
  · rfl
  · rfl

/-- A data row whose date cell does not parse is skipped. -/
lemma parseCSVRow_skip_date (env : CsvEnv) (di dsi ti ai tli pi : ℤ) (line : String)
    (hC : csvParseDate env ((parseCSVLine line).getD di.toNat "") = none) :
    parseCSVRow env di dsi ti ai tli pi line = none := by
  simp only [parseCSVRow]
  repeat' split
  all_goals try rfl
  all_goals simp_all

/-- A data row whose distance cell does not parse to a positive number is
skipped. -/
lemma parseCSVRow_skip_distance (env : CsvEnv) (di dsi ti ai tli pi : ℤ) (line : String)
    (hC : ∀ d, jsParseFloat (cleanNumeric ((parseCSVLine line).getD dsi.toNat "")) = some d →
      d ≤ 0) :
    parseCSVRow env di dsi ti ai tli pi line = none := by
  simp only [parseCSVRow]
  repeat' split
  all_goals try rfl
  all_goals simp_all

/-- A data row whose time cell does not parse to a positive duration is
skipped. -/
lemma parseCSVRow_skip_time (env : CsvEnv) (di dsi ti ai tli pi : ℤ) (line : String)
    (hC : ∀ t, parseTimeMinutes ((parseCSVLine line).getD ti.toNat "") = some t → t ≤ 0) :
    parseCSVRow env di dsi ti ai tli pi line = none := by
  simp only [parseCSVRow]
  repeat' split
  all_goals try rfl
  all_goals simp_all

/-- C9: with the required header columns present, the CSV parser is
per-row tolerant: the file value is null exactly when no data row parses
and is otherwise the list of parsed rows; rows with a non-running
activity type, an unparseable date, a non-positive distance or an
unparseable time are skipped without failing the file. -/
theorem parseCSVFile_row_tolerant (env : CsvEnv) (content : String)
    (hlen : 2 ≤ (csvLines content).length)
    (hdate : csvDateIndex content ≠ -1)
    (hdist : csvDistanceIndex content ≠ -1)
    (htime : csvTimeIndex content ≠ -1) :
    (parseCSVFile env content = none ↔ csvParsedRows env content = []) ∧
    (∀ rs, parseCSVFile env content = some rs →
      rs = csvParsedRows env content ∧ rs ≠ []) ∧
    (∀ line,
      (csvActivityType (csvActivityTypeIndex content) (parseCSVLine line) ≠ "" ∧
       ¬ strContains (csvActivityType (csvActivityTypeIndex content) (parseCSVLine line))
         "run" ∧
       ¬ strContains (csvActivityType (csvActivityTypeIndex content) (parseCSVLine line))
         "jog") →
      parseCSVRow env (csvDateIndex content) (csvDistanceIndex content) (csvTimeIndex content)
        (csvActivityTypeIndex content) (csvTitleIndex content) (csvPaceIndex content) line =
        none) ∧
    (∀ line,
      csvParseDate env ((parseCSVLine line).getD (csvDateIndex content).toNat "") = none →
      parseCSVRow env (csvDateIndex content) (csvDistanceIndex content) (csvTimeIndex content)
        (csvActivityTypeIndex content) (csvTitleIndex content) (csvPaceIndex content) line =
        none) ∧
    (∀ line,
      (∀ d, jsParseFloat (cleanNumeric
        ((parseCSVLine line).getD (csvDistanceIndex content).toNat "")) = some d → d ≤ 0) →
      parseCSVRow env (csvDateIndex content) (csvDistanceIndex content) (csvTimeIndex content)
        (csvActivityTypeIndex content) (csvTitleIndex content) (csvPaceIndex content) line =
        none) ∧
    (∀ line,
      (∀ t, parseTimeMinutes
        ((parseCSVLine line).getD (csvTimeIndex content).toNat "") = some t → t ≤ 0) →
      parseCSVRow env (csvDateIndex content) (csvDistanceIndex content) (csvTimeIndex content)
        (csvActivityTypeIndex content) (csvTitleIndex content) (csvPaceIndex content) line =
        none) := by
  have hnotlt : ¬((csvLines content).length < 2) := not_lt.mpr hlen
  have hidx : ¬(csvDateIndex content = -1 ∨ csvDistanceIndex content = -1 ∨
      csvTimeIndex content = -1) := by
    push_neg
    exact ⟨hdate, hdist, htime⟩
  have hmain : parseCSVFile env content =
      (if 0 < (csvParsedRows env content).length then some (csvParsedRows env content)
       else none) := by
    simp only [parseCSVFile]
    rw [if_neg hnotlt, if_neg hidx]
  refine ⟨?_, ?_,
    fun line hC => parseCSVRow_skip_activity env _ _ _ _ _ _ line hC,
    fun line hC => parseCSVRow_skip_date env _ _ _ _ _ _ line hC,
    fun line hC => parseCSVRow_skip_distance env _ _ _ _ _ _ line hC,
    fun line hC => parseCSVRow_skip_time env _ _ _ _ _ _ line hC⟩
  · rw [hmain]
    cases hrc : csvParsedRows env content with
    | nil => simp
    | cons a as => simp
  · intro rs hrs
    rw [hmain] at hrs
    cases hrc : csvParsedRows env content with
    | nil => rw [hrc] at hrs; simp at hrs
    | cons a as =>
      rw [hrc] at hrs
      simp at hrs
      subst hrs
      exact ⟨rfl, by simp⟩

/-- CSV content fixture: header plus one valid running row and one row
with an invalid distance. -/
def csvContentW : String :=
  "Date,Distance,Time,Activity Type\n1/1/2024,3.1,28:00,Running\n1/2/2024,-1,10:00,Running"

/-- Witness for C9 at the fixture CSV content and date oracle. -/
theorem parseCSVFile_row_tolerant_witness :
    2 ≤ (csvLines csvContentW).length ∧
    csvDateIndex csvContentW ≠ -1 ∧
    csvDistanceIndex csvContentW ≠ -1 ∧
    csvTimeIndex csvContentW ≠ -1 ∧
    ((parseCSVFile csvEnvW csvContentW = none ↔ csvParsedRows csvEnvW csvContentW = []) ∧
    (∀ rs, parseCSVFile csvEnvW csvContentW = some rs →
      rs = csvParsedRows csvEnvW csvContentW ∧ rs ≠ []) ∧
    (∀ line,
      (csvActivityType (csvActivityTypeIndex csvContentW) (parseCSVLine line) ≠ "" ∧
       ¬ strContains (csvActivityType (csvActivityTypeIndex csvContentW) (parseCSVLine line))
         "run" ∧
       ¬ strContains (csvActivityType (csvActivityTypeIndex csvContentW) (parseCSVLine line))
         "jog") →
      parseCSVRow csvEnvW (csvDateIndex csvContentW) (csvDistanceIndex csvContentW)
        (csvTimeIndex csvContentW) (csvActivityTypeIndex csvContentW)
        (csvTitleIndex csvContentW) (csvPaceIndex csvContentW) line = none) ∧
    (∀ line,
      csvParseDate csvEnvW ((parseCSVLine line).getD (csvDateIndex csvContentW).toNat "") =
        none →
      parseCSVRow csvEnvW (csvDateIndex csvContentW) (csvDistanceIndex csvContentW)
        (csvTimeIndex csvContentW) (csvActivityTypeIndex csvContentW)
        (csvTitleIndex csvContentW) (csvPaceIndex csvContentW) line = none) ∧
    (∀ line,
      (∀ d, jsParseFloat (cleanNumeric
        ((parseCSVLine line).getD (csvDistanceIndex csvContentW).toNat "")) = some d →
        d ≤ 0) →
      parseCSVRow csvEnvW (csvDateIndex csvContentW) (csvDistanceIndex csvContentW)
        (csvTimeIndex csvContentW) (csvActivityTypeIndex csvContentW)
        (csvTitleIndex csvContentW) (csvPaceIndex csvContentW) line = none) ∧
    (∀ line,
      (∀ t, parseTimeMinutes
        ((parseCSVLine line).getD (csvTimeIndex csvContentW).toNat "") = some t → t ≤ 0) →
      parseCSVRow csvEnvW (csvDateIndex csvContentW) (csvDistanceIndex csvContentW)
        (csvTimeIndex csvContentW) (csvActivityTypeIndex csvContentW)
        (csvTitleIndex csvContentW) (csvPaceIndex csvContentW) line = none)) :=
  ⟨by decide, by decide, by decide, by decide,
    parseCSVFile_row_tolerant csvEnvW csvContentW (by decide) (by decide) (by decide)
      (by decide)⟩

end TrackMyRun
